import Mathlib

/-!
Shallow embedding of the core of `src/main.py` (Vera Estratégica API v1.6.0):
the risk-scoring, pillar-inference and recommendation engine.

Python floats are modelled as `ℚ`; Python `None` as `Option.none`;
Python dicts standing for records as Lean structures.  Each definition
mirrors one function of the source file; trace logging (the `trace`
list that the Python functions append human-readable lines to) is
omitted because it never influences any returned value.
-/

namespace Vera

/-- One character of the diacritic-stripping step of `normalize`
(`unicodedata.normalize("NFD", s)` followed by dropping the combining
marks), tabulated for the Latin characters this API's vocabulary uses;
any other character is left unchanged. -/
def stripDiacritic (c : Char) : Char :=
  match c with
  | 'á' => 'a' | 'à' => 'a' | 'â' => 'a' | 'ã' => 'a' | 'ä' => 'a'
  | 'é' => 'e' | 'è' => 'e' | 'ê' => 'e' | 'ë' => 'e'
  | 'í' => 'i' | 'ì' => 'i' | 'î' => 'i' | 'ï' => 'i'
  | 'ó' => 'o' | 'ò' => 'o' | 'ô' => 'o' | 'õ' => 'o' | 'ö' => 'o'
  | 'ú' => 'u' | 'ù' => 'u' | 'û' => 'u' | 'ü' => 'u'
  | 'ç' => 'c' | 'ñ' => 'n'
  | 'Á' => 'A' | 'À' => 'A' | 'Â' => 'A' | 'Ã' => 'A' | 'Ä' => 'A'
  | 'É' => 'E' | 'È' => 'E' | 'Ê' => 'E' | 'Ë' => 'E'
  | 'Í' => 'I' | 'Ì' => 'I' | 'Î' => 'I' | 'Ï' => 'I'
  | 'Ó' => 'O' | 'Ò' => 'O' | 'Ô' => 'O' | 'Õ' => 'O' | 'Ö' => 'O'
  | 'Ú' => 'U' | 'Ù' => 'U' | 'Û' => 'U' | 'Ü' => 'U'
  | 'Ç' => 'C' | 'Ñ' => 'N'
  | c => c

/-- Python whitespace (the character class `str.strip()` removes). -/
def isPySpace (c : Char) : Bool :=
  c.toNat = 32 || c.toNat = 9 || c.toNat = 10 || c.toNat = 13 ||
  c.toNat = 11 || c.toNat = 12

/-- Python `str.strip()`. -/
def pyStrip (s : String) : String :=
  String.mk (((s.data.dropWhile isPySpace).reverse.dropWhile isPySpace).reverse)

/-- ASCII lowercasing (Python `str.lower()` on the post-diacritic
alphabet of this API). -/
def pyLower (c : Char) : Char :=
  if 65 ≤ c.toNat ∧ c.toNat ≤ 90 then Char.ofNat (c.toNat + 32) else c

/-- `normalize` of main.py: NFD-decompose, drop combining marks,
lowercase, strip surrounding whitespace; empty/None input gives "". -/
def normalize (s : String) : String :=
  if s = "" then ""
  else pyStrip (String.mk ((s.data.map stripDiacritic).map pyLower))

/-- Does `startsWithL needle hay` hold: is `needle` an initial run of `hay`? -/
def startsWithL : List Char → List Char → Bool
  | [], _ => true
  | _ :: _, [] => false
  | a :: as, b :: bs => a = b && startsWithL as bs

/-- Does `needle` occur contiguously inside `hay`? -/
def occursIn (needle : List Char) : List Char → Bool
  | [] => needle.isEmpty
  | c :: rest => startsWithL needle (c :: rest) || occursIn needle rest

/-- Python's substring test `needle in hay`. -/
def substrOf (needle hay : String) : Bool :=
  occursIn needle.data hay.data

/-- Python `str.replace(target, repl)` for a single-character target
(the only shape the source uses). -/
def pyReplace1 (target : Char) (repl : String) (s : String) : String :=
  String.mk (s.data.foldr (fun c acc => if c = target then repl.data ++ acc else c :: acc) [])

/-- Fuel-driven worker for `pySplit` (fuel bounds the number of
consumed characters, so `length` fuel is always enough). -/
def splitFuel (sep : List Char) : Nat → List Char → List (List Char)
  | 0, l => [l]
  | fuel + 1, l =>
    match l with
    | [] => [[]]
    | c :: rest =>
      if sep ≠ [] && startsWithL sep l then
        [] :: splitFuel sep fuel (l.drop sep.length)
      else
        match splitFuel sep fuel rest with
        | [] => [[c]]
        | p :: ps => (c :: p) :: ps

/-- Python `s.split(sep)` for a non-empty separator. -/
def pySplit (s sep : String) : List String :=
  (splitFuel sep.data s.data.length s.data).map String.mk

/-- Python `sep.join(parts)`. -/
def joinWith (sep : String) : List String → String
  | [] => ""
  | [x] => x
  | x :: xs => x ++ sep ++ joinWith sep xs

/-- Does `l` end with the run `suff`? -/
def endsWithL (suff l : List Char) : Bool :=
  startsWithL suff.reverse l.reverse

/-- Decimal digits of `n`, most significant first (fuel-driven so it
reduces inside the kernel). -/
def natDigits : Nat → Nat → List Char
  | 0, _ => []
  | fuel + 1, n =>
      if n < 10 then [Char.ofNat (48 + n)]
      else natDigits fuel (n / 10) ++ [Char.ofNat (48 + n % 10)]

/-- Decimal rendering of a natural number. -/
def natToStr (n : Nat) : String :=
  String.mk (natDigits (n + 1) n)

/-- Value of a digit run, most significant first. -/
def digitsVal (l : List Char) : Nat :=
  l.foldl (fun a c => a * 10 + (c.toNat - 48)) 0

/-- Python's `float(s)` restricted to the plain decimal numerals this
API's inputs use (optional sign, digits, at most one dot, at least one
digit overall); anything else fails, as the enclosing `try/except`
turns any parse error into `None`. -/
def pyFloat (s : String) : Option ℚ :=
  let cs := s.data
  let signed : ℚ × List Char :=
    match cs with
    | '-' :: rest => (-1, rest)
    | '+' :: rest => (1, rest)
    | _ => (1, cs)
  let sign := signed.1
  let body := signed.2
  let intPart := body.takeWhile Char.isDigit
  let rest := body.dropWhile Char.isDigit
  match rest with
  | [] => if intPart.isEmpty then none else some (sign * (digitsVal intPart : ℚ))
  | '.' :: frac =>
      if frac.all Char.isDigit && !(intPart.isEmpty && frac.isEmpty) then
        some (sign * ((digitsVal intPart : ℚ) + (digitsVal frac : ℚ) / (10 ^ frac.length)))
      else none
  | _ => none

/-- `to_number` of main.py: strip, drop spaces and percent signs,
resolve `,`/`.` as locale separators, then parse as float ( `None` on
failure). -/
def to_number (s : Option String) : Option ℚ :=
  match s with
  | none => none
  | some s0 =>
    let s1 := pyReplace1 '%' "" (pyReplace1 ' ' "" (pyStrip s0))
    let s2 :=
      if substrOf "," s1 && substrOf "." s1 then
        pyReplace1 ',' "." (pyReplace1 '.' "" s1)
      else if substrOf "," s1 then pyReplace1 ',' "." s1
      else s1
    pyFloat s2

/-- `percent_to_number` of main.py. -/
def percent_to_number (s : Option String) : Option ℚ :=
  match s with
  | none => none
  | some s0 =>
    let s1 := pyStrip s0
    to_number (some (if endsWithL ['%'] s1.data then String.mk s1.data.dropLast else s1))

/-- Python `a or b` on two optional strings (an empty string is falsy). -/
def pyOr (a b : Option String) : Option String :=
  match a with
  | some s => if s = "" then b else some s
  | none => b

/-- Python truthiness of an optional float (0.0 is falsy). -/
def pyTruthy (q : Option ℚ) : Bool :=
  match q with
  | some v => decide (v ≠ 0)
  | none => false

/-- The `seen`-set deduplication loop used at the end of
`riscos_chave_contextual` and `gerar_recomendacoes_contextuais`:
keep the first occurrence of each string, in order. -/
def dedupAux (memo : List String) : List String → List String
  | [] => []
  | x :: xs => if x ∈ memo then dedupAux memo xs else x :: dedupAux (x :: memo) xs

/-- Order-preserving first-occurrence deduplication (`memo = ∅`). -/
def dedupFirst (l : List String) : List String := dedupAux [] l

/-- A calendar date (Python `datetime.date`); comparison is
lexicographic on (year, month, day) just as in Python. -/
structure PyDate where
  year : Nat
  month : Nat
  day : Nat
deriving DecidableEq, Repr

/-- Python's `d1 < d2` on dates. -/
def dateLt (a b : PyDate) : Bool :=
  a.year < b.year ||
  (a.year = b.year && (a.month < b.month ||
    (a.month = b.month && a.day < b.day)))

/-- Python's `"%.2f" % q` formatting used for the indicator lines
(rounding modelled as round-half-up on the exact rational value). -/
def fmt2 (q : ℚ) : String :=
  let c : Int := ⌊q * 100 + 1 / 2⌋
  let n := c.natAbs
  (if c < 0 then "-" else "") ++ natToStr (n / 100) ++ "." ++
    (if n % 100 < 10 then "0" else "") ++ natToStr (n % 100)

/-- A schedule task (main.py's task dict), in canonical parsed form:
dates and percent already run through `parse_date` / `to_number`
(`_analisar` normalizes raw entries to exactly this shape before any
scoring touches them). -/
structure Task where
  nome : String
  inicio : Option PyDate
  fim : Option PyDate
  pct : Option ℚ
  critica : Bool
deriving Repr

/-- The `campos_num` dict built at the top of `_analisar`. -/
structure CamposNum where
  cpi_num : Option ℚ
  spi_num : Option ℚ
  avanco_fisico_num : Option ℚ
  avanco_financeiro_num : Option ℚ
deriving Repr

/-- Raw auxiliary indicator map (`campos["indicadores"]`), values as
given (strings, absent key = `none`). -/
structure IndRaw where
  isp : Option String
  idp : Option String
  idco : Option String
  idb : Option String
deriving Repr

/-- Parsed indicator map (the `indicadores` dict of `_analisar`). -/
structure IndNum where
  isp : Option ℚ
  idp : Option ℚ
  idco : Option ℚ
  idb : Option ℚ
deriving Repr

/-- The `baseline` dict: `{"prazo": {"data_planejada": ...},
"custo": {"capex_aprovado": ...}}`, with absent sub-keys = `none`. -/
structure Baseline where
  prazo_data_planejada : Option String
  custo_capex_aprovado : Option String
deriving Repr

/-- The `financeiro` dict.  Both alias spellings that the source
looks up (`capex_comp`/`capex comprometido`, `capex_exec`/`capex
executado`) are separate fields. -/
structure Financeiro where
  capex_aprovado : Option String
  capex_comp : Option String
  capex_comprometido : Option String
  capex_exec : Option String
  capex_executado : Option String
  ev : Option String
  pv : Option String
  ac : Option String
  eac : Option String
  vac : Option String
deriving Repr

/-- The canonical field-set (`campos`) handed to `_analisar`: every
scalar present (sentinel "Não informado" when absent), every container
present (empty when absent). -/
structure Campos where
  nome_projeto : String
  cpi : String
  spi : String
  avanco_fisico : String
  avanco_financeiro : String
  tipo_contrato : String
  stakeholders : String
  observacoes : String
  pilar : String
  objetivo : String
  resumo_status : List String
  planos_proximo_periodo : List String
  pontos_atencao : List String
  indicadores : IndRaw
  data_final_planejada : String
  baseline : Baseline
  escopo : String
  cronograma : List Task
  financeiro : Financeiro
deriving Repr

/-- The all-defaults canonical field-set (every scalar the
"Não informado" sentinel, every list/map empty), exactly the `campos`
dict that `parse_from_text` initializes (and that the structured
endpoint produces from an empty payload). -/
def camposDefault : Campos where
  nome_projeto := "Não informado"
  cpi := "Não informado"
  spi := "Não informado"
  avanco_fisico := "Não informado"
  avanco_financeiro := "Não informado"
  tipo_contrato := "Não informado"
  stakeholders := "Não informado"
  observacoes := "Não informado"
  pilar := "Não informado"
  objetivo := "Não informado"
  resumo_status := []
  planos_proximo_periodo := []
  pontos_atencao := []
  indicadores := ⟨none, none, none, none⟩
  data_final_planejada := "Não informado"
  baseline := ⟨none, none⟩
  escopo := "Não informado"
  cronograma := []
  financeiro := ⟨none, none, none, none, none, none, none, none, none, none⟩

/-- `TARGETS` of main.py. -/
def TARGETS_cpi : ℚ := 0.90
def TARGETS_spi : ℚ := 0.95
def TARGETS_idx_meta : ℚ := 1.00

/-- The fixed keyword list scanned over normalized observations in
`calcular_score_risco_base`. -/
def obsKeywords : List String :=
  ["atraso", "licenc", "embargo", "paralis", "fornecedor", "pressao",
   "custo", "multas", "sancao", "risco", "equip", "critico"]

/-- CPI contribution of `calcular_score_risco_base`. -/
def cpiPart (cpi : Option ℚ) : ℚ :=
  match cpi with
  | none => 0
  | some v => if v < 0.85 then 5 else if v < 0.90 then 3 else 0

/-- SPI contribution of `calcular_score_risco_base`. -/
def spiPart (spi : Option ℚ) : ℚ :=
  match spi with
  | none => 0
  | some v => if v < 0.90 then 5 else if v < 0.95 then 3 else 0

/-- Physical-vs-financial gap contribution of `calcular_score_risco_base`. -/
def gapPart (fis fin : Option ℚ) : ℚ :=
  match fis, fin with
  | some f, some g =>
      let gap := |f - g|
      if gap ≥ 15 then 2 else if gap ≥ 8 then 1 else 0
  | _, _ => 0

/-- Narrative-keyword contribution of `calcular_score_risco_base`:
count of distinct keywords occurring in the normalized observations,
capped at 4 (only added when positive, which changes nothing). -/
def kwPart (observacoes : String) : ℚ :=
  let obs_norm := normalize observacoes
  let pontos := (obsKeywords.filter (fun k => substrOf k obs_norm)).length
  if pontos > 0 then (min 4 pontos : ℕ) else 0

/-- `calcular_score_risco_base` of main.py (sum of its four
independent additive contributions). -/
def calcular_score_risco_base (cn : CamposNum) (observacoes : String) : ℚ :=
  cpiPart cn.cpi_num + spiPart cn.spi_num +
    gapPart cn.avanco_fisico_num cn.avanco_financeiro_num + kwPart observacoes

/-- Per-index contribution of `risco_por_indices` (its inner `add`). -/
def idxPart (v : Option ℚ) : ℚ :=
  match v with
  | none => 0
  | some v => if v < 0.90 then 3 else if v < TARGETS_idx_meta then 1 else 0

/-- `risco_por_indices` of main.py. -/
def risco_por_indices (ind : IndNum) : ℚ :=
  idxPart ind.isp + idxPart ind.idp + idxPart ind.idco + idxPart ind.idb

/-- `atrasado` of `risco_por_cronograma`: parsed end date strictly
before today and percent-complete unknown or below 100. -/
def atrasado (hoje : PyDate) (t : Task) : Bool :=
  match t.fim with
  | some f => dateLt f hoje && (match t.pct with | none => true | some p => decide (p < 100))
  | none => false

/-- Per-task contribution of the `risco_por_cronograma` loop. -/
def taskScore (hoje : PyDate) (t : Task) : ℚ :=
  (if atrasado hoje t && t.critica then (3 : ℚ)
   else if atrasado hoje t then (1 : ℚ) else 0) +
  (if (match t.pct with | some p => decide (p < 30) | none => false) && t.critica
   then (1 : ℚ) else 0)

/-- `risco_por_cronograma` of main.py (the loop accumulates exactly the
sum of the per-task contributions; `hoje` is `date.today()`, made an
explicit parameter). -/
def risco_por_cronograma (hoje : PyDate) (tarefas : List Task) : ℚ :=
  (tarefas.map (taskScore hoje)).sum

/-- `risco_por_baseline_financeiro` of main.py. -/
def risco_por_baseline_financeiro (baseline : Baseline) (fin : Financeiro) : ℚ :=
  let capex_aprovado := to_number baseline.custo_capex_aprovado
  let eac := to_number fin.eac
  let vac := to_number fin.vac
  let comp := to_number (pyOr fin.capex_comp fin.capex_comprometido)
  (match vac with | some v => if v < 0 then 3 else 0 | none => 0) +
  (match capex_aprovado, eac with
   | some ca, some e => if e > ca then 2 else 0
   | _, _ => 0) +
  (match capex_aprovado, comp with
   | some ca, some co => if co > ca then 2 else 0
   | _, _ => 0)

/-- `classificar_risco` of main.py ("Política Kaio: sem Crítico"). -/
def classificar_risco (score : ℚ) : String :=
  if score ≥ 7 then "Alto" else if score ≥ 4 then "Médio" else "Baixo"

/-- Feature flags of main.py (`FEATURES`), at their hard-coded values. -/
def FEATURES_enable_schedule_pack : Bool := true
def FEATURES_enable_finance_pack : Bool := true

/-- Excellence keyword list of `inferir_pilar`. -/
def kwListExc : List String :=
  ["processo", "estrutura", "governanca", "governança", "rituais", "metas",
   "desdobramento", "coerencia", "coerência", "execucao", "execução"]

/-- Customer keyword list of `inferir_pilar`. -/
def kwListCli : List String :=
  ["cliente", "experiencia", "experiência", "sla", "jornada",
   "confiabilidade", "satisfacao", "satisfação", "atendimento"]

/-- Capital keyword list of `inferir_pilar`. -/
def kwListCap : List String :=
  ["capex", "investimento", "priorizacao", "priorização", "retorno",
   "vpl", "tir", "payback", "disciplina de capital"]

/-- Return-oriented keyword list of the Capital +1 bonus in `inferir_pilar`. -/
def kwListRet : List String := ["retorno", "vpl", "tir", "payback"]

/-- The concatenated normalized search text built at the top of
`inferir_pilar` (observations, objective, scope, status bullets,
plan bullets, joined by single spaces). -/
def texto_base (c : Campos) : String :=
  joinWith " "
    [normalize c.observacoes, normalize c.objetivo, normalize c.escopo,
     joinWith " " (c.resumo_status.map normalize),
     joinWith " " (c.planos_proximo_periodo.map normalize)]

/-- `v is not None and v < alvo`. -/
def belowTarget (v : Option ℚ) (alvo : ℚ) : Bool :=
  match v with
  | some x => decide (x < alvo)
  | none => false

/-- `score_exc` as accumulated in `inferir_pilar`: +2 for an
Excellence keyword hit, +2 if CPI or SPI is below its target, +1 per
auxiliary indicator below 1.00. -/
def scoreExc (c : Campos) (cn : CamposNum) (ind : IndNum) : ℕ :=
  (if kwListExc.any (fun k => substrOf k (texto_base c)) then 2 else 0) +
  (if belowTarget cn.cpi_num TARGETS_cpi || belowTarget cn.spi_num TARGETS_spi
   then 2 else 0) +
  (if belowTarget ind.isp TARGETS_idx_meta then 1 else 0) +
  (if belowTarget ind.idp TARGETS_idx_meta then 1 else 0) +
  (if belowTarget ind.idco TARGETS_idx_meta then 1 else 0) +
  (if belowTarget ind.idb TARGETS_idx_meta then 1 else 0)

/-- `score_cli` as accumulated in `inferir_pilar`. -/
def scoreCli (c : Campos) : ℕ :=
  if kwListCli.any (fun k => substrOf k (texto_base c)) then 2 else 0

/-- `score_cap` as accumulated in `inferir_pilar`: +2 for a Capital
keyword hit, +1 if a return keyword appears or
`to_number(campos["financeiro"].get("capex_aprovado"))` is truthy
(a non-None, nonzero float). -/
def scoreCap (c : Campos) : ℕ :=
  (if kwListCap.any (fun k => substrOf k (texto_base c)) then 2 else 0) +
  (if kwListRet.any (fun k => substrOf k (texto_base c)) ||
      pyTruthy (to_number c.financeiro.capex_aprovado)
   then 1 else 0)

/-- The three fixed pillar names, in the enumeration order of `trio`. -/
def pilarExcName : String := "Excelência Organizacional"
def pilarCliName : String := "Foco no Cliente"
def pilarCapName : String := "Alocação Estratégica de Capital"

/-- `inferir_pilar` of main.py.  `trio.sort(key=score, reverse=True)`
is a stable descending sort, so `trio[0]` is the first pair (in the
enumeration order Excellence, Customer, Capital) attaining the maximal
score; `None` is returned when that maximum is 0. -/
def inferir_pilar (c : Campos) (cn : CamposNum) (ind : IndNum) : Option String :=
  let e := scoreExc c cn ind
  let cl := scoreCli c
  let k := scoreCap c
  let top : String × ℕ :=
    if e ≥ cl ∧ e ≥ k then (pilarExcName, e)
    else if cl ≥ k then (pilarCliName, cl)
    else (pilarCapName, k)
  if top.2 = 0 then none else some top.1

/-- `split_stakeholders` of main.py: for the first separator of the
priority list `[";", ",", "\\n", "\n"]` (the third entry is the
two-character literal backslash-n) occurring in the string, split on
it and strip the parts; if none occurs, the whole stripped string is
the single part; empty parts are dropped. -/
def split_stakeholders (stakeholders : String) : List String :=
  if stakeholders = "" ∨ stakeholders = "Não informado" then []
  else
    let parts :=
      if substrOf ";" stakeholders then (pySplit stakeholders ";").map pyStrip
      else if substrOf "," stakeholders then (pySplit stakeholders ",").map pyStrip
      else if substrOf "\\n" stakeholders then (pySplit stakeholders "\\n").map pyStrip
      else if substrOf "\n" stakeholders then (pySplit stakeholders "\n").map pyStrip
      else [pyStrip stakeholders]
    parts.filter (fun p => p ≠ "")

/-- `_first_delayed_critical_task` of main.py: the name of the first
critical task with a parsed end date strictly before today and
percent-complete unknown or below 100 (falling back to the label
"tarefa crítica" when the task has no name). -/
def first_delayed_critical_task (hoje : PyDate) : List Task → Option String
  | [] => none
  | t :: ts =>
    if t.critica && atrasado hoje t then
      some (if t.nome = "" then "tarefa crítica" else t.nome)
    else first_delayed_critical_task hoje ts

/-- `_regulatory_flags` of main.py. -/
def regulatory_flags (obs_norm : String) : List String :=
  (if substrOf "licenc" obs_norm then ["licenças pendentes"] else []) ++
  (if substrOf "embargo" obs_norm then ["embargo/interdição"] else []) ++
  (if substrOf "paralis" obs_norm then ["paralisação de frentes"] else [])

/-- Keyword-to-message mapping of the observation section of
`riscos_chave_contextual`. -/
def obsRiskMapping : List (String × String) :=
  [("licenc", "Regulatório: risco de licenças/autorizações."),
   ("embargo", "Regulatório: risco de embargo/interdição."),
   ("paralis", "Operação: risco de paralisação de frentes."),
   ("fornecedor", "Suprimentos: dependência de fornecedor crítico."),
   ("equip", "Técnico: fornecimento de equipamentos sensível."),
   ("critico", "Incidência de itens críticos."),
   ("risco", "Riscos adicionais reportados.")]

/-- Indicator line of `riscos_chave_contextual` for one auxiliary
index. -/
def idxRiskLine (name : String) (v : Option ℚ) : List String :=
  match v with
  | some x =>
      if x < TARGETS_idx_meta then
        ["Índice " ++ name ++ " abaixo de 1,00 (" ++ fmt2 x ++ ")."]
      else []
  | none => []

/-- The `riscos` list of `riscos_chave_contextual` as accumulated by
its appends, before the final first-occurrence deduplication. -/
def riscos_raw (hoje : PyDate) (cn : CamposNum) (tarefas : List Task)
    (baseline : Baseline) (fin : Financeiro) (observacoes : String)
    (ind : IndNum) : List String :=
  let obs_n := normalize observacoes
  let delayed := first_delayed_critical_task hoje tarefas
  let vac := to_number fin.vac
  let eac := to_number fin.eac
  let capex_aprovado := to_number baseline.custo_capex_aprovado
  let comp := to_number (pyOr fin.capex_comp fin.capex_comprometido)
  (match cn.cpi_num with
   | none => []
   | some cpi =>
      if cpi < 0.85 then
        let cause :=
          (if belowTarget vac 0 then ["VAC negativo"] else []) ++
          (match eac, capex_aprovado with
           | some e, some ca => if e > ca then ["EAC>CAPEX"] else []
           | _, _ => []) ++
          (match comp, capex_aprovado with
           | some co, some ca => if co > ca then ["Comprometido>aprovado"] else []
           | _, _ => [])
        ["Custo: CPI < 0,85 — forte risco orçamentário" ++
          (if cause ≠ [] then " (" ++ joinWith "; " cause ++ ")" else "") ++ "."]
      else if cpi < TARGETS_cpi then
        ["Custo: CPI entre 0,85 e 0,90 — pressão de custos."]
      else []) ++
  (match cn.spi_num with
   | none => []
   | some spi =>
      if spi < 0.90 then
        let motivo :=
          (match delayed with
           | some d => ["tarefa crítica atrasada: " ++ d]
           | none => []) ++ regulatory_flags obs_n
        ["Prazo: SPI < 0,90 — alto risco de atraso" ++
          (if motivo ≠ [] then " (" ++ joinWith "; " motivo ++ ")" else "") ++ "."]
      else if spi < TARGETS_spi then
        ["Prazo: SPI entre 0,90 e 0,95 — risco de deslizamento."]
      else []) ++
  (match cn.avanco_fisico_num, cn.avanco_financeiro_num with
   | some f, some g =>
      let gap := |f - g|
      if gap ≥ 15 then
        ["Execução: gap físico x financeiro ≥15pp — possível inconsistência de medição (auditar critérios)."]
      else if gap ≥ 8 then
        ["Execução: gap físico x financeiro ≥8pp — atenção à coerência de medição."]
      else []
   | _, _ => []) ++
  (idxRiskLine "ISP" ind.isp ++ idxRiskLine "IDP" ind.idp ++
   idxRiskLine "IDCO" ind.idco ++ idxRiskLine "IDB" ind.idb) ++
  dedupFirst ((obsRiskMapping.filter (fun km => substrOf km.1 obs_n)).map (·.2))

/-- `riscos_chave_contextual` of main.py: the accumulated risk bullets
followed by the first-occurrence exact-string deduplication loop. -/
def riscos_chave_contextual (hoje : PyDate) (cn : CamposNum)
    (tarefas : List Task) (baseline : Baseline) (fin : Financeiro)
    (observacoes : String) (ind : IndNum) : List String :=
  dedupFirst (riscos_raw hoje cn tarefas baseline fin observacoes ind)

/-- The "Owners sugeridos" line appended by
`gerar_recomendacoes_contextuais`: at most the first three owner
names, comma-joined. -/
def ownersLine (owners : List String) : String :=
  "Owners sugeridos: " ++ joinWith ", " (owners.take 3) ++ "."

/-- The `recs` list of `gerar_recomendacoes_contextuais` as
accumulated by its appends, before the final deduplication. -/
def recs_raw (hoje : PyDate) (c : Campos) (cn : CamposNum)
    (tarefas : List Task) (baseline : Baseline) (fin : Financeiro)
    (observacoes : String) (pilar_foco : String) : List String :=
  let obs_n := normalize observacoes
  let vac := to_number fin.vac
  let eac := to_number fin.eac
  let capex_aprovado := to_number baseline.custo_capex_aprovado
  let delayed := first_delayed_critical_task hoje tarefas
  let pf := normalize pilar_foco
  let owners := split_stakeholders c.stakeholders
  (match cn.spi_num with
   | some spi =>
      if spi < TARGETS_spi then
        (match delayed with
         | some d => ["Replanejar caminho crítico e atacar " ++ d ++ " com dono e data (D+5)."]
         | none => []) ++
        (if substrOf "licenc" obs_n || substrOf "embargo" obs_n then
          ["Acionar frente regulatória/jurídica para destravar licenças/embargos (D+3)."]
         else [])
      else []
   | none => []) ++
  (match cn.cpi_num with
   | some cpi =>
      if cpi < TARGETS_cpi then
        (if belowTarget vac 0 ||
            (match eac, capex_aprovado with
             | some e, some ca => decide (e > ca)
             | _, _ => false) then
          ["Instalar ou reforçar Change Control Board e rebaselinar financeiro (D+10)."]
         else [])
      else []
   | none => []) ++
  (match cn.avanco_fisico_num, cn.avanco_financeiro_num with
   | some f, some g =>
      let gap := |f - g|
      if gap ≥ 15 then
        ["Auditar critérios de medição físico x financeiro (≥15pp) e unificar regras (D+7)."]
      else if gap ≥ 8 then
        ["Alinhar critérios de medição físico x financeiro (≥8pp) (D+10)."]
      else []
   | _, _ => []) ++
  (if substrOf "fornecedor" obs_n then
    ["Conduzir reunião executiva com fornecedor crítico e plano 5W2H/contingência (D+3)."]
   else []) ++
  (if substrOf "excelencia" pf then
    ["Implantar rituais semanais de performance com metas desdobradas e RACI claro (D+7)."]
   else []) ++
  (if substrOf "cliente" pf then
    ["Mapear jornada do cliente e ajustar SLAs de comunicação/serviço (D+15)."]
   else []) ++
  (if substrOf "alocacao" pf then
    ["Revisar business case (VPL/TIR ajustados a risco) e repriorizar CAPEX (D+20)."]
   else []) ++
  (if owners ≠ [] then [ownersLine owners] else [])

/-- `gerar_recomendacoes_contextuais` of main.py: the accumulated
recommendation bullets followed by the first-occurrence deduplication
loop. -/
def gerar_recomendacoes_contextuais (hoje : PyDate) (c : Campos)
    (cn : CamposNum) (tarefas : List Task) (baseline : Baseline)
    (fin : Financeiro) (observacoes : String) (pilar_foco : String) :
    List String :=
  dedupFirst (recs_raw hoje c cn tarefas baseline fin observacoes pilar_foco)

/-- The slice of `_analisar`'s output payload that the core engine
computes (score, classification, pillar fields, key-risk list, two
next-step tracks). -/
structure AnaliseResult where
  score : ℚ
  classificacao : String
  pilar_declarado : String
  pilar_sugerido : Option String
  pilar_divergente : Bool
  pilar_final : String
  riscos_chave : List String
  proximos_recomendado : List String
  proximos_atual : List String
deriving Repr

/-- `Optional[str]` Python truthiness fallback `a or b` where `a` is
an optional string. -/
def pyOrStr (a : Option String) (b : String) : String :=
  match a with
  | some s => if s = "" then b else s
  | none => b

/-- The `campos_num` dict built at the top of `_analisar`. -/
def cnOf (c : Campos) : CamposNum :=
  ⟨to_number (some c.cpi), to_number (some c.spi),
   percent_to_number (some c.avanco_fisico),
   percent_to_number (some c.avanco_financeiro)⟩

/-- The parsed `indicadores` dict built in `_analisar`. -/
def indOf (c : Campos) : IndNum :=
  ⟨to_number c.indicadores.isp, to_number c.indicadores.idp,
   to_number c.indicadores.idco, to_number c.indicadores.idb⟩

/-- The normalized `fin` dict built in `_analisar`: `capex_aprovado`
falls back to the baseline value, the alias keys are resolved (so the
alias fields of the result are empty). -/
def finMerged (c : Campos) : Financeiro :=
  { capex_aprovado := pyOr c.financeiro.capex_aprovado c.baseline.custo_capex_aprovado
    capex_comp := pyOr c.financeiro.capex_comp c.financeiro.capex_comprometido
    capex_comprometido := none
    capex_exec := pyOr c.financeiro.capex_exec c.financeiro.capex_executado
    capex_executado := none
    ev := c.financeiro.ev, pv := c.financeiro.pv, ac := c.financeiro.ac
    eac := c.financeiro.eac, vac := c.financeiro.vac }

/-- `_analisar` of main.py (the core pipeline), with `date.today()`
made the explicit parameter `hoje`.  The schedule tasks of a
canonical field-set are already parsed, so the per-task
`isinstance`/re-parse normalization of the source is the identity
here. -/
def analisar (hoje : PyDate) (c : Campos) : AnaliseResult :=
  let cn := cnOf c
  let ind := indOf c
  let tarefas := c.cronograma
  let fin := finMerged c
  let pilar_declarado := c.pilar
  let pilar_inferido := inferir_pilar c cn ind
  -- `divergente = declarado and declarado != sentinel and inferido and norm(d) != norm(i)`
  let divergente : Bool :=
    if pilar_declarado = "" ∨ pilar_declarado = "Não informado" then false
    else match pilar_inferido with
      | none => false
      | some p => if p = "" then false else normalize pilar_declarado ≠ normalize p
  let pilar_final :=
    if pilar_declarado ≠ "" ∧ pilar_declarado ≠ "Não informado" then pilar_declarado
    else pyOrStr pilar_inferido "Não informado"
  let score :=
    calcular_score_risco_base cn c.observacoes + risco_por_indices ind +
    (if FEATURES_enable_schedule_pack then risco_por_cronograma hoje tarefas else 0) +
    (if FEATURES_enable_finance_pack then risco_por_baseline_financeiro c.baseline fin else 0)
  let classificacao := classificar_risco score
  let pilar_para_recomendado := pyOrStr pilar_inferido pilar_final
  let proximos_recomendado :=
    gerar_recomendacoes_contextuais hoje c cn tarefas c.baseline fin
      c.observacoes pilar_para_recomendado
  let proximos_atual :=
    gerar_recomendacoes_contextuais hoje c cn tarefas c.baseline fin
      c.observacoes (if pilar_declarado = "" then "Não informado" else pilar_declarado)
  let riscos_ctx := riscos_chave_contextual hoje cn tarefas c.baseline fin c.observacoes ind
  { score := score
    classificacao := classificacao
    pilar_declarado := pilar_declarado
    pilar_sugerido := pilar_inferido
    pilar_divergente := divergente
    pilar_final := pilar_final
    riscos_chave := riscos_ctx
    proximos_recomendado := proximos_recomendado
    proximos_atual := proximos_atual }

/-- A fixed evaluation date for the closed end-to-end scenarios. -/
def d2026 : PyDate := ⟨2026, 10, 12⟩

/-- An end date in the past relative to `d2026`. -/
def dPast : PyDate := ⟨2026, 1, 1⟩

/-- End-to-end scenario 1 field-set: cost index "0.80", schedule index
"0.92", physical progress "50%", financial progress "40%",
observations "atraso no fornecedor crítico", no other fields. -/
def scenario1Campos : Campos :=
  { camposDefault with
    cpi := "0.80", spi := "0.92",
    avanco_fisico := "50%", avanco_financeiro := "40%",
    observacoes := "atraso no fornecedor crítico" }

/-- End-to-end scenario 4 field-set: a single critical task with a
past end date and percent-complete 20; no schedule index. -/
def scenario4Campos : Campos :=
  { camposDefault with
    cronograma := [⟨"Fundações", none, some dPast, some 20, true⟩] }

/-- A field-set whose narrative contains only a governance/process
keyword and that declares the Customer pillar. -/
def declCliCampos : Campos :=
  { camposDefault with pilar := "Foco no Cliente", observacoes := "processo" }

/-- A field-set with an approved budget of exactly 0 in the
`financeiro` map. -/
def capexZeroCampos : Campos :=
  { camposDefault with
    financeiro := ⟨some "0", none, none, none, none, none, none, none, none, none⟩ }

/-- A field-set with two semicolon-separated stakeholders. -/
def stakeCampos : Campos :=
  { camposDefault with stakeholders := "Ana; Bob" }

/-- Modelled from the spec's amended wording for the stakeholder
split: split on the first separator, from the priority list
semicolon, comma, the literal two-character sequence backslash-n,
newline, that occurs in the string; the whole stripped string is a
single owner when none matches; empty names are dropped. -/
def split_stakeholders_spec (s : String) : List String :=
  if s = "" ∨ s = "Não informado" then []
  else
    match [";", ",", "\\n", "\n"].find? (fun sep => substrOf sep s) with
    | some sep => (((pySplit s sep).map pyStrip).filter (fun p => p ≠ ""))
    | none => ([pyStrip s].filter (fun p => p ≠ ""))

/-! ## Helper lemmas -/

theorem ite_nonneg {p : Prop} [Decidable p] {a b : ℚ} (ha : 0 ≤ a) (hb : 0 ≤ b) :
    0 ≤ if p then a else b := by
  split_ifs <;> assumption

theorem cpiPart_nonneg (v : Option ℚ) : 0 ≤ cpiPart v := by
  cases v with
  | none => simp [cpiPart]
  | some x =>
    simp only [cpiPart]
    exact ite_nonneg (by norm_num) (ite_nonneg (by norm_num) le_rfl)

theorem spiPart_nonneg (v : Option ℚ) : 0 ≤ spiPart v := by
  cases v with
  | none => simp [spiPart]
  | some x =>
    simp only [spiPart]
    exact ite_nonneg (by norm_num) (ite_nonneg (by norm_num) le_rfl)

theorem gapPart_nonneg (a b : Option ℚ) : 0 ≤ gapPart a b := by
  cases a with
  | none => simp [gapPart]
  | some x =>
    cases b with
    | none => simp [gapPart]
    | some y =>
      simp only [gapPart]
      exact ite_nonneg (by norm_num) (ite_nonneg (by norm_num) le_rfl)

theorem kwPart_nonneg (s : String) : 0 ≤ kwPart s := by
  simp only [kwPart]
  exact ite_nonneg (by positivity) le_rfl

theorem calcular_score_risco_base_nonneg (cn : CamposNum) (obs : String) :
    0 ≤ calcular_score_risco_base cn obs :=
  add_nonneg (add_nonneg (add_nonneg (cpiPart_nonneg _) (spiPart_nonneg _))
    (gapPart_nonneg _ _)) (kwPart_nonneg _)

theorem idxPart_nonneg (v : Option ℚ) : 0 ≤ idxPart v := by
  cases v with
  | none => simp [idxPart]
  | some x =>
    simp only [idxPart]
    exact ite_nonneg (by norm_num) (ite_nonneg (by norm_num) le_rfl)

theorem risco_por_indices_nonneg (ind : IndNum) : 0 ≤ risco_por_indices ind :=
  add_nonneg (add_nonneg (add_nonneg (idxPart_nonneg _) (idxPart_nonneg _))
    (idxPart_nonneg _)) (idxPart_nonneg _)

theorem taskScore_nonneg (hoje : PyDate) (t : Task) : 0 ≤ taskScore hoje t :=
  add_nonneg (ite_nonneg (by norm_num) (ite_nonneg (by norm_num) le_rfl))
    (ite_nonneg (by norm_num) le_rfl)

theorem risco_por_cronograma_nonneg (hoje : PyDate) (ts : List Task) :
    0 ≤ risco_por_cronograma hoje ts := by
  refine List.sum_nonneg ?_
  intro x hx
  rcases List.mem_map.mp hx with ⟨t, _, rfl⟩
  exact taskScore_nonneg hoje t

theorem risco_por_baseline_financeiro_nonneg (b : Baseline) (f : Financeiro) :
    0 ≤ risco_por_baseline_financeiro b f := by
  unfold risco_por_baseline_financeiro
  refine add_nonneg (add_nonneg ?_ ?_) ?_
  · cases to_number f.vac with
    | none => norm_num
    | some v => exact ite_nonneg (by norm_num) le_rfl
  · cases to_number b.custo_capex_aprovado with
    | none => norm_num
    | some ca =>
      cases to_number f.eac with
      | none => norm_num
      | some e => exact ite_nonneg (by norm_num) le_rfl
  · cases to_number b.custo_capex_aprovado with
    | none => norm_num
    | some ca =>
      cases to_number (pyOr f.capex_comp f.capex_comprometido) with
      | none => norm_num
      | some co => exact ite_nonneg (by norm_num) le_rfl

theorem analisar_score_eq (hoje : PyDate) (c : Campos) :
    (analisar hoje c).score =
      calcular_score_risco_base (cnOf c) c.observacoes + risco_por_indices (indOf c) +
      (if FEATURES_enable_schedule_pack then risco_por_cronograma hoje c.cronograma else 0) +
      (if FEATURES_enable_finance_pack
       then risco_por_baseline_financeiro c.baseline (finMerged c) else 0) := rfl

theorem analisar_classificacao_eq (hoje : PyDate) (c : Campos) :
    (analisar hoje c).classificacao = classificar_risco ((analisar hoje c).score) := rfl

theorem inferir_pilar_ne_empty (c : Campos) (cn : CamposNum) (ind : IndNum)
    (p : String) (h : inferir_pilar c cn ind = some p) : p ≠ "" := by
  simp only [inferir_pilar] at h
  split_ifs at h
  all_goals
    first
      | exact Option.noConfusion h
      | (injection h with h'
         subst h'
         dsimp only
         decide)

theorem mem_dedupAux (memo l : List String) (x : String) :
    x ∈ dedupAux memo l ↔ x ∈ l ∧ x ∉ memo := by
  induction l generalizing memo with
  | nil => simp [dedupAux]
  | cons a as ih =>
    simp only [dedupAux]
    by_cases ha : a ∈ memo
    · rw [if_pos ha, ih]
      constructor
      · rintro ⟨h1, h2⟩
        exact ⟨List.mem_cons_of_mem _ h1, h2⟩
      · rintro ⟨h1, h2⟩
        rcases List.mem_cons.mp h1 with rfl | h1
        · exact absurd ha h2
        · exact ⟨h1, h2⟩
    · rw [if_neg ha]
      simp only [List.mem_cons, ih]
      constructor
      · rintro (rfl | ⟨h1, h2⟩)
        · exact ⟨Or.inl rfl, ha⟩
        · exact ⟨Or.inr h1, fun hx => h2 (Or.inr hx)⟩
      · rintro ⟨rfl | h1, h2⟩
        · exact Or.inl rfl
        · by_cases hxa : x = a
          · exact Or.inl hxa
          · exact Or.inr ⟨h1, fun hx => hx.elim hxa h2⟩

theorem dedupAux_sublist (memo l : List String) : (dedupAux memo l).Sublist l := by
  induction l generalizing memo with
  | nil => simp [dedupAux]
  | cons a as ih =>
    simp only [dedupAux]
    by_cases ha : a ∈ memo
    · rw [if_pos ha]
      exact (ih memo).cons a
    · rw [if_neg ha]
      exact (ih (a :: memo)).cons₂ a

theorem dedupAux_nodup (memo l : List String) : (dedupAux memo l).Nodup := by
  induction l generalizing memo with
  | nil => simp [dedupAux]
  | cons a as ih =>
    simp only [dedupAux]
    by_cases ha : a ∈ memo
    · rw [if_pos ha]
      exact ih memo
    · rw [if_neg ha]
      refine List.nodup_cons.mpr ⟨fun hmem => ?_, ih (a :: memo)⟩
      exact ((mem_dedupAux _ _ _).mp hmem).2 (List.mem_cons_self a memo)

theorem mem_dedupFirst (l : List String) (x : String) :
    x ∈ dedupFirst l ↔ x ∈ l := by
  rw [dedupFirst, mem_dedupAux]
  simp

theorem analisar_pilar_sugerido_eq (hoje : PyDate) (c : Campos) :
    (analisar hoje c).pilar_sugerido = inferir_pilar c (cnOf c) (indOf c) := rfl

theorem analisar_pilar_divergente_eq (hoje : PyDate) (c : Campos) :
    (analisar hoje c).pilar_divergente =
      (if c.pilar = "" ∨ c.pilar = "Não informado" then false
       else match inferir_pilar c (cnOf c) (indOf c) with
        | none => false
        | some p => if p = "" then false
                    else decide (normalize c.pilar ≠ normalize p)) := rfl

theorem analisar_pilar_final_eq (hoje : PyDate) (c : Campos) :
    (analisar hoje c).pilar_final =
      (if c.pilar ≠ "" ∧ c.pilar ≠ "Não informado" then c.pilar
       else pyOrStr (inferir_pilar c (cnOf c) (indOf c)) "Não informado") := rfl

/-! ## Claim theorems -/

/-- C1: for every canonical field-set the computed risk score is
nonnegative, and the returned classification is the pure function of
the score against the fixed thresholds: score ≥ 7 → "Alto",
4 ≤ score < 7 → "Médio", score < 4 → "Baixo" (the high threshold
being the hard-coded constant 7 in this version). -/
theorem c1_score_nonneg_classification_thresholds (hoje : PyDate) (c : Campos) :
    0 ≤ (analisar hoje c).score ∧
    (analisar hoje c).classificacao =
      (if (analisar hoje c).score ≥ 7 then "Alto"
       else if (analisar hoje c).score ≥ 4 then "Médio" else "Baixo") := by
  constructor
  · rw [analisar_score_eq]
    refine add_nonneg (add_nonneg (add_nonneg ?_ ?_) ?_) ?_
    · exact calcular_score_risco_base_nonneg _ _
    · exact risco_por_indices_nonneg _
    · exact ite_nonneg (risco_por_cronograma_nonneg _ _) le_rfl
    · exact ite_nonneg (risco_por_baseline_financeiro_nonneg _ _) le_rfl
  · rw [analisar_classificacao_eq]
    rfl

/-- C2: the cost-index and schedule-index contributions use strict
half-open intervals (cost: [0, 0.85) → +5, [0.85, 0.90) → +3,
[0.90, ∞) → +0; schedule: [0, 0.90) → +5, [0.90, 0.95) → +3,
[0.95, ∞) → +0), and an absent or unparseable index contributes
nothing. -/
theorem c2_index_threshold_boundaries :
    (∀ q : ℚ, q < 0.85 → calcular_score_risco_base ⟨some q, none, none, none⟩ "" = 5) ∧
    (∀ q : ℚ, 0.85 ≤ q → q < 0.90 →
      calcular_score_risco_base ⟨some q, none, none, none⟩ "" = 3) ∧
    (∀ q : ℚ, 0.90 ≤ q → calcular_score_risco_base ⟨some q, none, none, none⟩ "" = 0) ∧
    (∀ q : ℚ, q < 0.90 → calcular_score_risco_base ⟨none, some q, none, none⟩ "" = 5) ∧
    (∀ q : ℚ, 0.90 ≤ q → q < 0.95 →
      calcular_score_risco_base ⟨none, some q, none, none⟩ "" = 3) ∧
    (∀ q : ℚ, 0.95 ≤ q → calcular_score_risco_base ⟨none, some q, none, none⟩ "" = 0) ∧
    to_number (some "Não informado") = none ∧
    calcular_score_risco_base ⟨none, none, none, none⟩ "" = 0 := by
  have hkw : kwPart "" = 0 := by with_unfolding_all decide
  refine ⟨?_, ?_, ?_, ?_, ?_, ?_, by with_unfolding_all decide,
    by with_unfolding_all decide⟩
  · intro q h
    simp only [calcular_score_risco_base, cpiPart, spiPart, gapPart, hkw]
    rw [if_pos h]
    norm_num
  · intro q h1 h2
    simp only [calcular_score_risco_base, cpiPart, spiPart, gapPart, hkw]
    rw [if_neg (not_lt.mpr h1), if_pos h2]
    norm_num
  · intro q h
    simp only [calcular_score_risco_base, cpiPart, spiPart, gapPart, hkw]
    rw [if_neg (not_lt.mpr (le_trans (by norm_num) h)), if_neg (not_lt.mpr h)]
    norm_num
  · intro q h
    simp only [calcular_score_risco_base, cpiPart, spiPart, gapPart, hkw]
    rw [if_pos h]
    norm_num
  · intro q h1 h2
    simp only [calcular_score_risco_base, cpiPart, spiPart, gapPart, hkw]
    rw [if_neg (not_lt.mpr h1), if_pos h2]
    norm_num
  · intro q h
    simp only [calcular_score_risco_base, cpiPart, spiPart, gapPart, hkw]
    rw [if_neg (not_lt.mpr (le_trans (by norm_num) h)), if_neg (not_lt.mpr h)]
    norm_num

/-- Witness for C2 at the boundary inputs 0.80/0.85/0.90 (cost) and
0.85/0.90/0.95 (schedule). -/
theorem c2_index_threshold_boundaries_witness :
    calcular_score_risco_base ⟨some 0.80, none, none, none⟩ "" = 5 ∧
    calcular_score_risco_base ⟨some 0.85, none, none, none⟩ "" = 3 ∧
    calcular_score_risco_base ⟨some 0.90, none, none, none⟩ "" = 0 ∧
    calcular_score_risco_base ⟨none, some 0.85, none, none⟩ "" = 5 ∧
    calcular_score_risco_base ⟨none, some 0.90, none, none⟩ "" = 3 ∧
    calcular_score_risco_base ⟨none, some 0.95, none, none⟩ "" = 0 :=
  ⟨c2_index_threshold_boundaries.1 0.80 (by norm_num),
   c2_index_threshold_boundaries.2.1 0.85 (by norm_num) (by norm_num),
   c2_index_threshold_boundaries.2.2.1 0.90 (by norm_num),
   c2_index_threshold_boundaries.2.2.2.1 0.85 (by norm_num),
   c2_index_threshold_boundaries.2.2.2.2.1 0.90 (by norm_num) (by norm_num),
   c2_index_threshold_boundaries.2.2.2.2.2.1 0.95 (by norm_num)⟩

/-- C3 counterexample: on the scenario-1 field-set (cost "0.80",
schedule "0.92", progress "50%"/"40%", observations "atraso no
fornecedor crítico") the engine's total risk score is 12, not 11 as
the claim states: the observations hit three keywords (atraso,
fornecedor, critico), contributing +3, not +2. -/
theorem c3_counterexample_score_is_12_not_11 :
    (analisar d2026 scenario1Campos).score = 12 ∧
    ¬ (analisar d2026 scenario1Campos).score = 11 := by
  with_unfolding_all decide

/-- C3 (amended): on scenario 1 the cost contribution is +5, the
schedule contribution +3, the progress-gap contribution +1, the
narrative-keyword contribution +3 (three distinct keywords hit:
atraso, fornecedor, critico), the total risk score 12, and the
classification "Alto". -/
theorem c3_amended_scenario1_score :
    cpiPart (to_number (some "0.80")) = 5 ∧
    spiPart (to_number (some "0.92")) = 3 ∧
    gapPart (percent_to_number (some "50%")) (percent_to_number (some "40%")) = 1 ∧
    kwPart "atraso no fornecedor crítico" = 3 ∧
    (analisar d2026 scenario1Campos).score = 12 ∧
    (analisar d2026 scenario1Campos).classificacao = "Alto" := by
  with_unfolding_all decide

/-- C4: pillar inference returns `none` exactly when all three
category scores are zero; otherwise it returns the pillar with the
strictly highest score, ties resolved in the fixed enumeration order
Excellence, Customer, Capital. -/
theorem c4_pilar_inference_none_iff_and_tiebreak (c : Campos) (cn : CamposNum) (ind : IndNum) :
    (inferir_pilar c cn ind = none ↔
      scoreExc c cn ind = 0 ∧ scoreCli c = 0 ∧ scoreCap c = 0) ∧
    (∀ p, inferir_pilar c cn ind = some p →
      ((p = pilarExcName ∧ scoreCli c ≤ scoreExc c cn ind ∧
          scoreCap c ≤ scoreExc c cn ind) ∨
       (p = pilarCliName ∧ scoreExc c cn ind < scoreCli c ∧
          scoreCap c ≤ scoreCli c) ∨
       (p = pilarCapName ∧ scoreExc c cn ind < scoreCap c ∧
          scoreCli c < scoreCap c))) := by
  simp only [inferir_pilar]
  by_cases h1 : scoreExc c cn ind ≥ scoreCli c ∧ scoreExc c cn ind ≥ scoreCap c
  · rw [if_pos h1]
    by_cases h2 : scoreExc c cn ind = 0
    · rw [if_pos h2]
      refine ⟨⟨fun _ => by omega, fun _ => rfl⟩, fun p hp => by simp at hp⟩
    · rw [if_neg h2]
      refine ⟨⟨fun h => by simp at h, fun hz => absurd hz.1 h2⟩, fun p hp => ?_⟩
      exact Or.inl ⟨(Option.some.inj hp).symm, h1.1, h1.2⟩
  · rw [if_neg h1]
    by_cases h2 : scoreCli c ≥ scoreCap c
    · rw [if_pos h2]
      by_cases h3 : scoreCli c = 0
      · rw [if_pos h3]
        refine ⟨⟨fun _ => by omega, fun _ => rfl⟩, fun p hp => by simp at hp⟩
      · rw [if_neg h3]
        refine ⟨⟨fun h => by simp at h, fun hz => absurd hz.2.1 h3⟩, fun p hp => ?_⟩
        exact Or.inr (Or.inl ⟨(Option.some.inj hp).symm, by omega, h2⟩)
    · rw [if_neg h2]
      by_cases h3 : scoreCap c = 0
      · rw [if_pos h3]
        refine ⟨⟨fun _ => by omega, fun _ => rfl⟩, fun p hp => by simp at hp⟩
      · rw [if_neg h3]
        refine ⟨⟨fun h => by simp at h, fun hz => absurd hz.2.2 h3⟩, fun p hp => ?_⟩
        exact Or.inr (Or.inr ⟨(Option.some.inj hp).symm, by omega, by omega⟩)

/-- Witness for C4: a field-set whose narrative contains only the
governance keyword "processo" is inferred as the Excellence pillar,
and the tie-break characterization holds there. -/
theorem c4_pilar_inference_witness :
    inferir_pilar declCliCampos (cnOf declCliCampos) (indOf declCliCampos) =
      some pilarExcName ∧
    ((pilarExcName = pilarExcName ∧
        scoreCli declCliCampos ≤ scoreExc declCliCampos (cnOf declCliCampos) (indOf declCliCampos) ∧
        scoreCap declCliCampos ≤ scoreExc declCliCampos (cnOf declCliCampos) (indOf declCliCampos)) ∨
     (pilarExcName = pilarCliName ∧
        scoreExc declCliCampos (cnOf declCliCampos) (indOf declCliCampos) < scoreCli declCliCampos ∧
        scoreCap declCliCampos ≤ scoreCli declCliCampos) ∨
     (pilarExcName = pilarCapName ∧
        scoreExc declCliCampos (cnOf declCliCampos) (indOf declCliCampos) < scoreCap declCliCampos ∧
        scoreCli declCliCampos < scoreCap declCliCampos)) :=
  ⟨by with_unfolding_all decide,
   (c4_pilar_inference_none_iff_and_tiebreak declCliCampos (cnOf declCliCampos)
      (indOf declCliCampos)).2 pilarExcName (by with_unfolding_all decide)⟩

/-- C5: for a canonical field-set (whose declared pillar is never the
empty string), the divergence flag is true iff the declared pillar is
present (not the "Não informado" sentinel), the inferred pillar
exists, and the two differ after case/diacritic normalization; and
the resolved final pillar is the declared pillar when present, else
the inferred pillar, else the sentinel. -/
theorem c5_divergence_flag_and_final_pillar (hoje : PyDate) (c : Campos)
    (hne : c.pilar ≠ "") :
    ((analisar hoje c).pilar_divergente = true ↔
      (c.pilar ≠ "Não informado" ∧
        ∃ p, (analisar hoje c).pilar_sugerido = some p ∧
          normalize c.pilar ≠ normalize p)) ∧
    (analisar hoje c).pilar_final =
      (if c.pilar ≠ "Não informado" then c.pilar
       else match (analisar hoje c).pilar_sugerido with
            | some p => p
            | none => "Não informado") := by
  rw [analisar_pilar_divergente_eq, analisar_pilar_final_eq, analisar_pilar_sugerido_eq]
  by_cases hd : c.pilar = "Não informado"
  · constructor
    · rw [if_pos (Or.inr hd)]
      simp [hd]
    · rw [if_neg (by simp [hd]), if_neg (by simp [hd])]
      cases hinf : inferir_pilar c (cnOf c) (indOf c) with
      | none => rfl
      | some p =>
        have hp := inferir_pilar_ne_empty c (cnOf c) (indOf c) p hinf
        simp [pyOrStr, hp]
  · constructor
    · rw [if_neg (by simp [hne, hd])]
      cases hinf : inferir_pilar c (cnOf c) (indOf c) with
      | none => simp [hd]
      | some p =>
        have hp := inferir_pilar_ne_empty c (cnOf c) (indOf c) p hinf
        simp [hp, hd]
    · rw [if_pos ⟨hne, hd⟩, if_pos hd]

/-- Witness for C5: declared pillar "Foco no Cliente" with a
governance-only narrative diverges from the inferred Excellence
pillar, and the final pillar is the declared one. -/
theorem c5_divergence_flag_witness :
    declCliCampos.pilar ≠ "" ∧
    (((analisar d2026 declCliCampos).pilar_divergente = true ↔
      (declCliCampos.pilar ≠ "Não informado" ∧
        ∃ p, (analisar d2026 declCliCampos).pilar_sugerido = some p ∧
          normalize declCliCampos.pilar ≠ normalize p)) ∧
     (analisar d2026 declCliCampos).pilar_final =
       (if declCliCampos.pilar ≠ "Não informado" then declCliCampos.pilar
        else match (analisar d2026 declCliCampos).pilar_sugerido with
             | some p => p
             | none => "Não informado")) :=
  ⟨by decide,
   c5_divergence_flag_and_final_pillar d2026 declCliCampos (by decide)⟩

/-- C6: with the schedule pack enabled the schedule-risk score is the
sum of per-task contributions; a task is overdue iff it has a parsed
end date strictly before today and percent-complete unknown or below
100; the contribution is +3 for overdue critical, +1 for overdue
non-critical, plus a stacking +1 when percent-complete is known,
below 30, and the task is critical; a critical task with a past end
date and percent-complete 20 contributes exactly +4. -/
theorem c6_schedule_risk_contributions (hoje : PyDate) :
    (∀ t, atrasado hoje t = true ↔
      (∃ d, t.fim = some d ∧ dateLt d hoje = true) ∧
      (t.pct = none ∨ ∃ p, t.pct = some p ∧ p < 100)) ∧
    (∀ ts, risco_por_cronograma hoje ts = (ts.map (taskScore hoje)).sum) ∧
    (∀ t, atrasado hoje t = true → t.critica = true → t.pct = none →
      taskScore hoje t = 3) ∧
    (∀ t p, atrasado hoje t = true → t.critica = true → t.pct = some p → 30 ≤ p →
      taskScore hoje t = 3) ∧
    (∀ t p, atrasado hoje t = true → t.critica = true → t.pct = some p → p < 30 →
      taskScore hoje t = 4) ∧
    (∀ t, atrasado hoje t = true → t.critica = false → taskScore hoje t = 1) ∧
    (∀ t p, atrasado hoje t = false → t.critica = true → t.pct = some p → p < 30 →
      taskScore hoje t = 1) ∧
    (∀ t, atrasado hoje t = false → t.critica = true → t.pct = none →
      taskScore hoje t = 0) ∧
    (∀ t p, atrasado hoje t = false → t.critica = true → t.pct = some p → 30 ≤ p →
      taskScore hoje t = 0) ∧
    (∀ t, atrasado hoje t = false → t.critica = false → taskScore hoje t = 0) ∧
    (∀ nome ini d, dateLt d hoje = true →
      risco_por_cronograma hoje [⟨nome, ini, some d, some 20, true⟩] = 4) := by
  refine ⟨?_, fun ts => rfl, ?_, ?_, ?_, ?_, ?_, ?_, ?_, ?_, ?_⟩
  · intro t
    cases ft : t.fim with
    | none => simp [atrasado, ft]
    | some d =>
      cases pt : t.pct with
      | none => simp [atrasado, ft, pt]
      | some p => simp [atrasado, ft, pt]
  · intro t h hc hp
    simp only [taskScore, h, hc, hp]
    norm_num
  · intro t p h hc hp h30
    simp only [taskScore, h, hc, hp]
    simp [not_lt.mpr h30]
  · intro t p h hc hp h30
    simp only [taskScore, h, hc, hp]
    simp only [decide_eq_true h30]
    norm_num
  · intro t h hc
    simp only [taskScore, h, hc]
    norm_num
  · intro t p h hc hp h30
    simp only [taskScore, h, hc, hp]
    simp only [decide_eq_true h30]
    norm_num
  · intro t h hc hp
    simp only [taskScore, h, hc, hp]
    norm_num
  · intro t p h hc hp h30
    simp only [taskScore, h, hc, hp]
    simp [not_lt.mpr h30]
  · intro t h hc
    simp only [taskScore, h, hc]
    norm_num
  · intro nome ini d hd
    simp only [risco_por_cronograma, List.map_cons, List.map_nil, List.sum_cons,
      List.sum_nil, taskScore, atrasado, hd]
    norm_num

/-- Witness for C6 at a concrete date pair: a critical task ending
2026-01-01, 20% complete, evaluated on 2026-10-12, contributes 4. -/
theorem c6_schedule_risk_witness :
    dateLt dPast d2026 = true ∧
    risco_por_cronograma d2026 [⟨"Fundações", none, some dPast, some 20, true⟩] = 4 :=
  ⟨by decide,
   (c6_schedule_risk_contributions d2026).2.2.2.2.2.2.2.2.2.2 "Fundações" none dPast
     (by decide)⟩

/-- C7 counterexample: on the scenario-4 field-set there IS an
overdue critical task ("Fundações", end date in the past, 20%
complete), yet — because no schedule index is supplied — the key-risk
list is empty: it contains no "tarefa crítica atrasada" entry naming
the task, contrary to the claim. -/
theorem c7_counterexample_no_task_entry_without_spi :
    first_delayed_critical_task d2026 scenario4Campos.cronograma = some "Fundações" ∧
    (analisar d2026 scenario4Campos).riscos_chave = [] := by
  with_unfolding_all decide

/-- C7 (amended): the key-risk list contains no byte-for-byte
duplicate entries and preserves first-occurrence order (it is an
order-preserving sublist of the accumulated bullets, keeping exactly
their set of members); an overdue critical task is named only inside
the SPI < 0.90 entry, so on the scenario-4 input (overdue critical
task, no schedule index) the key-risk list is empty. -/
theorem c7_amended_key_risk_list_dedup :
    (∀ hoje cn tarefas baseline fin obs ind,
      (riscos_chave_contextual hoje cn tarefas baseline fin obs ind).Nodup ∧
      (riscos_chave_contextual hoje cn tarefas baseline fin obs ind).Sublist
        (riscos_raw hoje cn tarefas baseline fin obs ind) ∧
      (∀ s, s ∈ riscos_chave_contextual hoje cn tarefas baseline fin obs ind ↔
        s ∈ riscos_raw hoje cn tarefas baseline fin obs ind)) ∧
    (analisar d2026 scenario4Campos).riscos_chave = [] := by
  constructor
  · intro hoje cn tarefas baseline fin obs ind
    refine ⟨dedupAux_nodup _ _, dedupAux_sublist _ _, fun s => mem_dedupFirst _ _⟩
  · with_unfolding_all decide

/-- C8: on the all-defaults canonical field-set (every scalar the
"Não informado" sentinel, every list/map empty) the core produces,
for any evaluation date: score 0, classification "Baixo", no inferred
pillar, an empty key-risk list, and two empty next-step lists. -/
theorem c8_all_defaults_degrade_gracefully (hoje : PyDate) :
    (analisar hoje camposDefault).score = 0 ∧
    (analisar hoje camposDefault).classificacao = "Baixo" ∧
    (analisar hoje camposDefault).pilar_sugerido = none ∧
    (analisar hoje camposDefault).riscos_chave = [] ∧
    (analisar hoje camposDefault).proximos_recomendado = [] ∧
    (analisar hoje camposDefault).proximos_atual = [] := by
  refine ⟨?_, ?_, ?_, ?_, ?_, ?_⟩ <;> with_unfolding_all rfl

/-- C9 counterexample: the pipe character is not one of the
separators `split_stakeholders` recognizes, so "Ana|Bob" stays a
single owner instead of splitting into "Ana" and "Bob". -/
theorem c9_counterexample_pipe_not_a_separator :
    split_stakeholders "Ana|Bob" = ["Ana|Bob"] ∧
    split_stakeholders "Ana|Bob" ≠ ["Ana", "Bob"] := by
  with_unfolding_all decide

/-- C9 (amended): for every non-sentinel, non-empty stakeholders
string the owners are obtained by splitting on the first matching
separator from the priority list semicolon, comma, the literal
two-character sequence backslash-n, newline (no pipe; the whole
stripped string is a single owner when none matches), keeping only
non-empty names; and each next-steps track carries an
"Owners sugeridos" line listing at most the first three of them. -/
theorem c9_amended_stakeholder_split :
    (∀ s, s ≠ "" → s ≠ "Não informado" →
      split_stakeholders s = split_stakeholders_spec s) ∧
    (∀ s p, p ∈ split_stakeholders s → p ≠ "") ∧
    (∀ owners, ownersLine owners =
      "Owners sugeridos: " ++ joinWith ", " (owners.take 3) ++ ".") ∧
    (∀ hoje c cn tarefas baseline fin obs pf,
      split_stakeholders c.stakeholders ≠ [] →
      ownersLine (split_stakeholders c.stakeholders) ∈
        gerar_recomendacoes_contextuais hoje c cn tarefas baseline fin obs pf) := by
  refine ⟨?_, ?_, fun owners => rfl, ?_⟩
  · intro s h1 h2
    have hcond : ¬(s = "" ∨ s = "Não informado") := by simp [h1, h2]
    simp only [split_stakeholders, split_stakeholders_spec]
    rw [if_neg hcond, if_neg hcond]
    by_cases hA : substrOf ";" s = true
    · rw [if_pos hA,
        @List.find?_cons_of_pos _ (fun sep => substrOf sep s) ";" [",", "\\n", "\n"] hA]
    · rw [if_neg hA,
        @List.find?_cons_of_neg _ (fun sep => substrOf sep s) ";" [",", "\\n", "\n"] hA]
      by_cases hB : substrOf "," s = true
      · rw [if_pos hB,
          @List.find?_cons_of_pos _ (fun sep => substrOf sep s) "," ["\\n", "\n"] hB]
      · rw [if_neg hB,
          @List.find?_cons_of_neg _ (fun sep => substrOf sep s) "," ["\\n", "\n"] hB]
        by_cases hC : substrOf "\\n" s = true
        · rw [if_pos hC,
            @List.find?_cons_of_pos _ (fun sep => substrOf sep s) "\\n" ["\n"] hC]
        · rw [if_neg hC,
            @List.find?_cons_of_neg _ (fun sep => substrOf sep s) "\\n" ["\n"] hC]
          by_cases hD : substrOf "\n" s = true
          · rw [if_pos hD,
              @List.find?_cons_of_pos _ (fun sep => substrOf sep s) "\n" [] hD]
          · rw [if_neg hD,
              @List.find?_cons_of_neg _ (fun sep => substrOf sep s) "\n" [] hD]
            rfl
  · intro s p hp
    simp only [split_stakeholders] at hp
    split at hp
    · exact absurd hp (List.not_mem_nil p)
    · exact of_decide_eq_true (List.mem_filter.mp hp).2
  · intro hoje c cn tarefas baseline fin obs pf h
    rw [gerar_recomendacoes_contextuais, mem_dedupFirst]
    simp only [recs_raw, List.mem_append]
    right
    rw [if_pos h]
    exact List.mem_singleton_self _

/-- Witness for C9 (amended): "Ana; Bob" splits on the semicolon in
both the source function and the spec-modelled function, and the
owners line appears among the generated recommendations. -/
theorem c9_amended_stakeholder_split_witness :
    split_stakeholders "Ana; Bob" = split_stakeholders_spec "Ana; Bob" ∧
    ownersLine (split_stakeholders stakeCampos.stakeholders) ∈
      gerar_recomendacoes_contextuais d2026 stakeCampos (cnOf stakeCampos)
        stakeCampos.cronograma stakeCampos.baseline (finMerged stakeCampos)
        stakeCampos.observacoes "Não informado" :=
  ⟨c9_amended_stakeholder_split.1 "Ana; Bob" (by decide) (by decide),
   c9_amended_stakeholder_split.2.2.2 d2026 stakeCampos (cnOf stakeCampos)
     stakeCampos.cronograma stakeCampos.baseline (finMerged stakeCampos)
     stakeCampos.observacoes "Não informado" (by with_unfolding_all decide)⟩

/-- C10: in pillar inference the +1 Capital bonus is awarded exactly
when a return/NPV/IRR/payback keyword appears in the narrative or the
`financeiro` map's `capex_aprovado` parses to a non-None, nonzero
number; an approved budget parsing to exactly 0 earns no bonus, and
the baseline record is ignored entirely by the inference. -/
theorem c10_capital_bonus_truthiness (c : Campos) :
    (to_number c.financeiro.capex_aprovado = none →
      scoreCap c =
        (if kwListCap.any (fun k => substrOf k (texto_base c)) then 2 else 0) +
        (if kwListRet.any (fun k => substrOf k (texto_base c)) then 1 else 0)) ∧
    (∀ q : ℚ, to_number c.financeiro.capex_aprovado = some q → q ≠ 0 →
      scoreCap c =
        (if kwListCap.any (fun k => substrOf k (texto_base c)) then 2 else 0) + 1) ∧
    (to_number c.financeiro.capex_aprovado = some 0 →
      scoreCap c =
        (if kwListCap.any (fun k => substrOf k (texto_base c)) then 2 else 0) +
        (if kwListRet.any (fun k => substrOf k (texto_base c)) then 1 else 0)) ∧
    (∀ (b : Baseline) (cn : CamposNum) (ind : IndNum),
      inferir_pilar { c with baseline := b } cn ind = inferir_pilar c cn ind) ∧
    to_number (some "0") = some 0 := by
  refine ⟨?_, ?_, ?_, fun b cn ind => rfl, by with_unfolding_all decide⟩
  · intro h
    simp only [scoreCap, h, pyTruthy, Bool.or_false]
  · intro q h hq
    simp only [scoreCap, h, pyTruthy, decide_eq_true hq, Bool.or_true, if_true]
  · intro h
    simp only [scoreCap, h, pyTruthy]
    norm_num

/-- Witness for C10: an approved budget of exactly "0" in the
`financeiro` map parses to 0 and earns no Capital bonus. -/
theorem c10_capital_bonus_witness :
    to_number capexZeroCampos.financeiro.capex_aprovado = some 0 ∧
    scoreCap capexZeroCampos =
      (if kwListCap.any (fun k => substrOf k (texto_base capexZeroCampos))
       then 2 else 0) +
      (if kwListRet.any (fun k => substrOf k (texto_base capexZeroCampos))
       then 1 else 0) :=
  ⟨by with_unfolding_all decide,
   (c10_capital_bonus_truthiness capexZeroCampos).2.2.1 (by with_unfolding_all decide)⟩

end Vera
